import Mathlib

/-!
Verification of the blood-bag inventory core (src/inventory_app.py).

Shallow embedding conventions:
* Calendar dates handled by `calculate_expiry`, `compute_age_text` and
  `update_inventory_status` are modelled as `Nat` day indices (Python
  `datetime.date` arithmetic via `timedelta(days=n)` is exact day-count
  arithmetic); an absent date (`None` / `NaT`) is `Option.none`.
* `datetime.today().date()` is injected as an explicit `today : Nat`
  parameter, fixed per invocation, for testability.
* The CSV date cells handled by `load_data` / `save_data` are modelled by a
  `DateYMD` structure with an explicit `YYYY-MM-DD` parser and formatter,
  mirroring `pd.to_datetime(..., format=DATE_FORMAT_STRING, errors=coerce)`
  and `strftime(DATE_FORMAT_STRING)` with `DATE_FORMAT_STRING = %Y-%m-%d`.
* Vectorized pandas passes (`df.loc[mask, col] = v`, `df.apply(..., axis=1)`)
  are embedded as per-row functions mapped over a `List` of rows, which is
  exactly their row-wise semantics (the masks involved are row-local).
-/

/-- One inventory row, after `load_data` normalization: the eleven
`MASTER_COLUMNS` of src/inventory_app.py (lines 18-21).  `collected` and
`expiry` are day indices (`none` = `NaT`); the remaining fields are the
text/number cells of the DataFrame. -/
structure Row where
  serial : String
  segment : String
  source : String
  blood_type : String
  component : String
  volume : Nat
  collected : Option Nat
  expiry : Option Nat
  age : String
  status : String
  patient : String
deriving DecidableEq

/-- Embedding of `calculate_expiry(collected_date, component)` (src/inventory_app.py
lines 30-47): `None` stays `None`; PRBC and Whole Blood get
`timedelta(days=42)`, Platelets `days=5`, FFP `days=7*365+1`, and every
other component falls through to the default `days=42` branch. -/
def calculate_expiry (collected_date : Option Nat) (component : String) : Option Nat :=
  match collected_date with
  | none => none
  | some c =>
    if component = "PRBC" ∨ component = "Whole Blood" then some (c + 42)
    else if component = "Platelets" then some (c + 5)
    else if component = "FFP" then some (c + (7 * 365 + 1))
    else some (c + 42)

/-- Embedding of `compute_age_text(collected_date, component)` (src/inventory_app.py
lines 49-70) with `today` injected.  `None` yields the empty string; a
future collection date yields `"Future"`; FFP renders
`"{diff // 365}y {diff % 365}d"`, every other component `"{diff}d"`.
(The `NaT` input case, which the source would only reach through a missing
`collected` cell, is modelled by the `none` branch.) -/
def compute_age_text (collected_date : Option Nat) (component : String) (today : Nat) : String :=
  match collected_date with
  | none => ""
  | some c =>
    if today < c then "Future"
    else
      let diff_days := today - c
      if component = "FFP" then
        toString (diff_days / 365) ++ "y " ++ toString (diff_days % 365) ++ "d"
      else
        toString diff_days ++ "d"

/-- The row-wise effect of the vectorized assignment in
`update_inventory_status` (src/inventory_app.py line 109):
`df.loc[(df.status.isin([Available, Crossmatched])) & (df.expiry.dt.date <= today), status] = Expired`.
A `NaT` expiry compares as `False` in pandas, hence the `none` branch. -/
def updateRow (today : Nat) (r : Row) : Row :=
  match r.expiry with
  | none => r
  | some e =>
    if (r.status = "Available" ∨ r.status = "Crossmatched") ∧ e ≤ today then
      { r with status := "Expired" }
    else r

/-- Embedding of `update_inventory_status(df)` (src/inventory_app.py lines 100-111) with
`today` injected: the masked column assignment applied row-wise.  The
`if expiry in df.columns` guard always holds after `load_data`. -/
def update_inventory_status (today : Nat) (df : List Row) : List Row :=
  df.map (updateRow today)

theorem update_inventory_status_eq_map (today : Nat) (df : List Row) :
    update_inventory_status today df = df.map (updateRow today) := rfl

/-- A calendar date as stored in a CSV cell, for the `%Y-%m-%d` parser and
formatter of `load_data` / `save_data`. -/
structure DateYMD where
  year : Nat
  month : Nat
  day : Nat
deriving DecidableEq

/-- Gregorian leap-year rule, as used by Python `datetime` when validating a
parsed `%Y-%m-%d` string. -/
def isLeap (y : Nat) : Bool :=
  (y % 4 == 0 && y % 100 != 0) || y % 400 == 0

/-- Days in a month of a given year (Python `calendar` rule used by
`datetime` validation). -/
def daysInMonth (y m : Nat) : Nat :=
  if m = 2 then (if isLeap y then 29 else 28)
  else if m = 4 ∨ m = 6 ∨ m = 9 ∨ m = 11 then 30
  else 31

/-- Calendar validity of a parsed date, as enforced by
`pd.to_datetime(..., errors=coerce)`: an out-of-range month or day makes the
cell `NaT`.  The pandas `Timestamp` range bound is checked separately by
`inTimestampRange`. -/
def validDate (t : DateYMD) : Bool :=
  1 ≤ t.month && t.month ≤ 12 && 1 ≤ t.day && t.day ≤ daysInMonth t.year t.month

/-- Range check of the pandas `Timestamp` representation, applied inside
`pd.to_datetime`: nanosecond timestamps span 1677-09-21T00:12:43 through
2262-04-11T23:47:16, so the midnight timestamps produced by parsing a
`%Y-%m-%d` cell are representable exactly for the calendar dates 1677-09-22
through 2262-04-11; outside that window `errors=coerce` turns the
out-of-bounds result into `NaT`. -/
def inTimestampRange (t : DateYMD) : Bool :=
  decide (1677 < t.year ∨ (t.year = 1677 ∧ (9 < t.month ∨ (t.month = 9 ∧ 22 ≤ t.day)))) &&
  decide (t.year < 2262 ∨ (t.year = 2262 ∧ (t.month < 4 ∨ (t.month = 4 ∧ t.day ≤ 11))))

/-- Decode one ASCII digit, as `strptime` field matching does. -/
def toDigit (c : Char) : Option Nat :=
  if 48 ≤ c.toNat ∧ c.toNat ≤ 57 then some (c.toNat - 48) else none

/-- Embedding of `pd.to_datetime(s, format=%Y-%m-%d, errors=coerce)` on one cell
(src/inventory_app.py line 84): a four-digit year, two-digit month and
two-digit day separated by dashes, validated as a calendar date and checked
against the `Timestamp` representable range; anything else — malformed,
calendar-invalid, or out of the `Timestamp` bounds — is coerced to `NaT`
(`none`).  (`strptime` also tolerates unpadded fields; the embedding covers
the canonical zero-padded form, which is the only form `save_data` ever
writes.) -/
def parseDateList : List Char → Option DateYMD
  | [y1, y2, y3, y4, h1, m1, m2, h2, d1, d2] =>
    if h1 = '-' ∧ h2 = '-' then
      match toDigit y1, toDigit y2, toDigit y3, toDigit y4,
            toDigit m1, toDigit m2, toDigit d1, toDigit d2 with
      | some a, some b, some c, some d, some e, some f, some g, some h =>
        let t : DateYMD := ⟨1000 * a + 100 * b + 10 * c + d, 10 * e + f, 10 * g + h⟩
        if validDate t && inTimestampRange t then some t else none
      | _, _, _, _, _, _, _, _ => none
    else none
  | _ => none

/-- String-level entry point of the date parser: match on the character
list of the cell. -/
def parseDate (s : String) : Option DateYMD :=
  parseDateList s.data

/-- ASCII digit character for `n ≤ 9`. -/
def digitChar (n : Nat) : Char := Char.ofNat (48 + n)

/-- Two-digit zero-padded decimal rendering (`%m`, `%d`). -/
def pad2 (n : Nat) : List Char := [digitChar (n / 10), digitChar (n % 10)]

/-- Four-digit decimal rendering (`%Y`; years in the pandas `Timestamp`
range always have four digits). -/
def pad4 (n : Nat) : List Char :=
  [digitChar (n / 1000), digitChar (n / 100 % 10), digitChar (n / 10 % 10), digitChar (n % 10)]

/-- Embedding of `d.strftime(DATE_FORMAT_STRING)` with `DATE_FORMAT_STRING = %Y-%m-%d`
(src/inventory_app.py lines 13 and 121). -/
def formatDate (t : DateYMD) : String :=
  ⟨pad4 t.year ++ '-' :: pad2 t.month ++ '-' :: pad2 t.day⟩

/-- The per-cell date load of `load_data` (src/inventory_app.py lines
82-84): the string sentinel `None` is first replaced by `NaN`, then the cell
is parsed with `%Y-%m-%d`, unparseable cells coercing to `NaT`. -/
def load_date_cell (s : String) : Option DateYMD :=
  if s = "None" then none else parseDate s

/-- Embedding of `date_to_string` inside `save_data` (src/inventory_app.py lines
116-123): `NaT` becomes the sentinel string `None`, a real date is formatted
with the ISO format string. -/
def save_date_cell : Option DateYMD → String
  | none => "None"
  | some t => formatDate t

/-- Cumulative days in the months of year `y` strictly before month `m`. -/
def daysBeforeMonth (y m : Nat) : Nat :=
  (List.range (m - 1)).foldl (fun acc i => acc + daysInMonth y (i + 1)) 0

/-- Proleptic day index of a calendar date, the order-preserving counterpart
of the Python `date` ordinal: it carries parsed CSV dates into the day-count
model used by the arithmetic functions. -/
def dateToDays (t : DateYMD) : Nat :=
  365 * t.year + t.year / 4 - t.year / 100 + t.year / 400
    + daysBeforeMonth t.year t.month + (t.day - 1)

/-- A raw CSV row as read by `pd.read_csv`: every cell is text, missing
text cells are `none` (`NaN`). -/
structure RawRow where
  serial : String
  segment : Option String
  source : Option String
  blood_type : String
  component : String
  volume : Nat
  collected : String
  expiry : String
  status : String
  patient : Option String
deriving DecidableEq

/-- A raw date cell carried into the day-count model:
`load_date_cell` then `dateToDays`. -/
def loadDateField (s : String) : Option Nat :=
  (load_date_cell s).map dateToDays

/-- Embedding of `df[col].fillna(str_None)` on a text cell (src/inventory_app.py line 91). -/
def fillNone : Option String → String
  | none => "None"
  | some s => s

/-- The per-row effect of `load_data` before the status pass
(src/inventory_app.py lines 79-94): date columns coerced (`None` sentinel
and unparseable strings to `NaT`), text columns `segment`, `source`,
`patient` filled with the `None` sentinel, and `age` recomputed from the
parsed `collected` and the `component`. -/
def normalizeRow (today : Nat) (raw : RawRow) : Row :=
  let collected := loadDateField raw.collected
  { serial := raw.serial
    segment := fillNone raw.segment
    source := fillNone raw.source
    blood_type := raw.blood_type
    component := raw.component
    volume := raw.volume
    collected := collected
    expiry := loadDateField raw.expiry
    age := compute_age_text collected raw.component today
    status := raw.status
    patient := fillNone raw.patient }

/-- Embedding of `load_data()` (src/inventory_app.py lines 72-98) on the rows read from
the CSV: normalize every row, then run `update_inventory_status`.  The final
`reindex(columns=MASTER_COLUMNS)` is the identity on the fixed `Row` schema. -/
def load_data (today : Nat) (raws : List RawRow) : List Row :=
  update_inventory_status today (raws.map (normalizeRow today))

/-- Whether `load_data` marks a row for operator review.  The source
`load_data` (src/inventory_app.py lines 72-98) returns only the DataFrame:
no code path records a warning, adds a marker column, or reports a coerced
date cell, so no loaded row is ever flagged. -/
def flagged_for_review (_r : Row) : Bool := false

/-- Embedding of `color_rows_by_expiry(row)` (src/inventory_app.py lines 132-147),
reduced to the single CSS style it replicates across the row's cells, with
`today` injected: status `Expired` gives the light-red style; a `NaT`
expiry gives no style; otherwise `days_left = expiry - today` gives the
light-yellow style exactly when `days_left <= EXPIRY_CRITICAL_DAYS = 3` and
`days_left > 0`. -/
def color_rows_by_expiry (status : String) (expiry : Option Nat) (today : Nat) : String :=
  if status = "Expired" then "background-color: #f8d7da"
  else
    match expiry with
    | none => ""
    | some e =>
      let days_left : Int := (e : Int) - (today : Int)
      if days_left ≤ 3 ∧ 0 < days_left then "background-color: #fff3cd"
      else ""

/-- Outcome of the new-unit form submit handler: the session record set
afterwards, what was handed to `save_data` (if anything), and the error
message shown by `st.error` (if any). -/
structure RegisterResult where
  df : List Row
  saved : Option (List Row)
  error : Option String
deriving DecidableEq

/-- The submit handler of `new_unit_form` (src/inventory_app.py lines
336-364): if the serial already occurs in the `serial` column, only
`st.error` runs — nothing is concatenated and `save_data` is not called;
otherwise the new row is appended and the result saved.  (On success the
source then re-reads the file it just wrote; the saved set is the session
set.) -/
def register_unit (df : List Row) (newUnit : Row) : RegisterResult :=
  if newUnit.serial ∈ df.map Row.serial then
    { df := df
      saved := none
      error := some ("Unit Serial Number " ++ newUnit.serial ++ " already exists.") }
  else
    let final_df := df ++ [newUnit]
    { df := final_df, saved := some final_df, error := none }

/-- C1 counterexample: the claim predicts a 35-day shelf life for Whole
Blood, but `calculate_expiry` adds 42 days (src/inventory_app.py line 39):
at collection day 0 the computed expiry is day 42, not day 35. -/
theorem spec_c1_counterexample :
    calculate_expiry (some 0) "Whole Blood" = some 42 ∧
    calculate_expiry (some 0) "Whole Blood" ≠ some 35 := by
  decide

/-- C1 (amended): for every present collection date `d`,
`calculate_expiry(d, c) - d` is 42 days for Whole Blood and PRBC, 5 days
for Platelets, and exactly 2,556 days for FFP. -/
theorem spec_c1_amended (d : Nat) (c : String) :
    (c = "Whole Blood" ∨ c = "PRBC" → calculate_expiry (some d) c = some (d + 42)) ∧
    (c = "Platelets" → calculate_expiry (some d) c = some (d + 5)) ∧
    (c = "FFP" → calculate_expiry (some d) c = some (d + 2556)) := by
  refine ⟨?_, ?_, ?_⟩
  · rintro (h | h) <;> subst h <;> simp [calculate_expiry]
  · rintro h; subst h; simp [calculate_expiry]
  · rintro h; subst h; simp [calculate_expiry]

/-- C1 witness: the amended shelf lives evaluated at collection day 10. -/
theorem spec_c1_amended_witness :
    calculate_expiry (some 10) "Whole Blood" = some 52 ∧
    calculate_expiry (some 10) "Platelets" = some 15 ∧
    calculate_expiry (some 10) "FFP" = some 2566 :=
  ⟨(spec_c1_amended 10 "Whole Blood").1 (Or.inl rfl),
   (spec_c1_amended 10 "Platelets").2.1 rfl,
   (spec_c1_amended 10 "FFP").2.2 rfl⟩

/-- C10: for every present collection date and every component outside the
four known ones, `calculate_expiry` answers through the default fallback
branch with `d + 42` — it never rejects and never returns `none`. -/
theorem spec_c10 (d : Nat) (c : String)
    (h : c ∉ ["Whole Blood", "PRBC", "Platelets", "FFP"]) :
    calculate_expiry (some d) c = some (d + 42) := by
  simp only [List.mem_cons, List.not_mem_nil, or_false, not_or] at h
  obtain ⟨h1, h2, h3, h4⟩ := h
  simp [calculate_expiry, h1, h2, h3, h4]

/-- C10 witness: the fallback evaluated on an unknown component. -/
theorem spec_c10_witness :
    calculate_expiry (some 7) "Cryoprecipitate" = some 49 :=
  spec_c10 7 "Cryoprecipitate" (by decide)

/-- C5: `compute_age_text` returns `Future` for a strictly-future
collection date; otherwise, with `n = today - collected`, it returns
`"{n div 365}y {n mod 365}d"` for FFP and `"{n}d"` for every other
component; in particular a non-FFP unit collected today reads `0d` and an
FFP unit 400 days old reads `1y 35d`. -/
theorem spec_c5 (comp : String) (c today : Nat) :
    (today < c → compute_age_text (some c) comp today = "Future") ∧
    (c ≤ today → comp ≠ "FFP" →
      compute_age_text (some c) comp today = toString (today - c) ++ "d") ∧
    (c ≤ today →
      compute_age_text (some c) "FFP" today =
        toString ((today - c) / 365) ++ "y " ++ toString ((today - c) % 365) ++ "d") ∧
    compute_age_text (some today) "PRBC" today = "0d" ∧
    compute_age_text (some c) "FFP" (c + 400) = "1y 35d" := by
  refine ⟨?_, ?_, ?_, ?_, ?_⟩
  · intro h; simp [compute_age_text, h]
  · intro h hne; simp [compute_age_text, Nat.not_lt.mpr h, hne]
  · intro h; simp [compute_age_text, Nat.not_lt.mpr h]
  · simp [compute_age_text]
    rfl
  · have h : ¬ (c + 400 < c) := by omega
    simp [compute_age_text, h, Nat.add_sub_cancel_left]
    rfl

/-- C5 witness: the three age shapes evaluated on concrete days. -/
theorem spec_c5_witness :
    compute_age_text (some 8) "PRBC" 5 = "Future" ∧
    compute_age_text (some 5) "PRBC" 8 = "3d" ∧
    compute_age_text (some 5) "FFP" 800 = "2y 65d" := by
  refine ⟨(spec_c5 "PRBC" 8 5).1 (by decide), ?_, ?_⟩
  · rw [(spec_c5 "PRBC" 5 8).2.1 (by decide) (by decide)]
    rfl
  · rw [(spec_c5 "FFP" 5 800).2.2.1 (by decide)]
    rfl

/-- C6 counterexample: the claim predicts the already-expired class for a
negative `expiry - today`, the near-expiry class at `expiry - today = 0`,
and a status-mirroring class for Transfused units; the code
(src/inventory_app.py lines 141-147) styles none of the first two (the
yellow branch requires `days_left > 0` and the red style is reserved for
status `Expired`) and runs Transfused rows through the ordinary
`days_left` check. -/
theorem spec_c6_counterexample :
    color_rows_by_expiry "Available" (some 5) 10 ≠ "background-color: #f8d7da" ∧
    color_rows_by_expiry "Available" (some 10) 10 ≠ "background-color: #fff3cd" ∧
    color_rows_by_expiry "Transfused" (some 12) 10 = "background-color: #fff3cd" := by
  decide

/-- C6 (amended): status `Expired` is styled already-expired (light red)
regardless of expiry; for every other status, a present expiry is styled
near-expiry (light yellow) exactly when `1 ≤ expiry - today ≤ 3`, and
otherwise — including `expiry - today ≤ 0` and an absent expiry — the row
is styled normal (no style). -/
theorem spec_c6_amended (s : String) (e today : Nat) :
    (color_rows_by_expiry "Expired" (some e) today = "background-color: #f8d7da") ∧
    (color_rows_by_expiry "Expired" none today = "background-color: #f8d7da") ∧
    (s ≠ "Expired" → color_rows_by_expiry s none today = "") ∧
    (s ≠ "Expired" → 0 < (e : Int) - today → (e : Int) - today ≤ 3 →
      color_rows_by_expiry s (some e) today = "background-color: #fff3cd") ∧
    (s ≠ "Expired" → ((e : Int) - today ≤ 0 ∨ 3 < (e : Int) - today) →
      color_rows_by_expiry s (some e) today = "") := by
  refine ⟨by simp [color_rows_by_expiry], by simp [color_rows_by_expiry], ?_, ?_, ?_⟩
  · intro hs; simp [color_rows_by_expiry, hs]
  · intro hs h1 h2; simp [color_rows_by_expiry, hs, h1, h2]
  · intro hs h; simp [color_rows_by_expiry, hs]; omega

/-- C6 witness: the amended classification evaluated on concrete rows. -/
theorem spec_c6_amended_witness :
    color_rows_by_expiry "Available" none 10 = "" ∧
    color_rows_by_expiry "Available" (some 12) 10 = "background-color: #fff3cd" ∧
    color_rows_by_expiry "Available" (some 30) 10 = "" :=
  ⟨(spec_c6_amended "Available" 0 10).2.2.1 (by decide),
   (spec_c6_amended "Available" 12 10).2.2.2.1 (by decide) (by decide) (by decide),
   (spec_c6_amended "Available" 30 10).2.2.2.2 (by decide) (Or.inr (by decide))⟩

/-- C8: registering a unit whose serial already occurs in the record set
leaves the record set unchanged, hands nothing to `save_data`, and reports
the duplicate-serial error. -/
theorem spec_c8 (df : List Row) (u : Row) (h : u.serial ∈ df.map Row.serial) :
    (register_unit df u).df = df ∧ (register_unit df u).saved = none ∧
    (register_unit df u).error =
      some ("Unit Serial Number " ++ u.serial ++ " already exists.") := by
  simp [register_unit, h]

theorem updateRow_cases (today : Nat) (r : Row) :
    updateRow today r = r ∨
    ((r.status = "Available" ∨ r.status = "Crossmatched") ∧
      (∃ e, r.expiry = some e ∧ e ≤ today) ∧
      updateRow today r = { r with status := "Expired" }) := by
  cases h : r.expiry with
  | none => left; simp [updateRow, h]
  | some e =>
    by_cases hc : (r.status = "Available" ∨ r.status = "Crossmatched") ∧ e ≤ today
    · exact Or.inr ⟨hc.1, ⟨e, rfl, hc.2⟩, by simp [updateRow, h, hc]⟩
    · left; simp [updateRow, h, hc]

theorem updateRow_fires (today : Nat) (r : Row)
    (hs : r.status = "Available" ∨ r.status = "Crossmatched")
    (e : Nat) (he : r.expiry = some e) (hle : e ≤ today) :
    updateRow today r = { r with status := "Expired" } := by
  have hc : (r.status = "Available" ∨ r.status = "Crossmatched") ∧ e ≤ today := ⟨hs, hle⟩
  simp [updateRow, he, hc]

/-- C2: the status deriver sends every unit with an active status and a
present expiry on or before today to `Expired`; equivalently, no unit it
surfaces still carries an active status together with an expiry that is not
in the future. -/
theorem spec_c2 (today : Nat) (df : List Row) :
    (∀ r ∈ df, (r.status = "Available" ∨ r.status = "Crossmatched") →
        ∀ e, r.expiry = some e → e ≤ today → (updateRow today r).status = "Expired") ∧
    ∀ r ∈ update_inventory_status today df,
      (r.status = "Available" ∨ r.status = "Crossmatched") →
      ∀ e, r.expiry = some e → today < e := by
  constructor
  · intro r _ hs e he hle
    rw [updateRow_fires today r hs e he hle]
  · intro r hr hs e he
    rw [update_inventory_status_eq_map, List.mem_map] at hr
    obtain ⟨r0, _, rfl⟩ := hr
    rcases updateRow_cases today r0 with h | ⟨_, _, hfire⟩
    · rw [h] at hs he
      by_contra hgt
      push_neg at hgt
      have hfired := updateRow_fires today r0 hs e he hgt
      rw [h] at hfired
      have hstat := congrArg Row.status hfired
      simp only at hstat
      rcases hs with hs | hs <;> rw [hs] at hstat <;> exact absurd hstat (by decide)
    · rw [hfire] at hs
      simp at hs

/-- C3: the status deriver is idempotent for a fixed `today`. -/
theorem spec_c3 (today : Nat) (df : List Row) :
    update_inventory_status today (update_inventory_status today df) =
      update_inventory_status today df := by
  rw [update_inventory_status_eq_map, update_inventory_status_eq_map, List.map_map]
  apply List.map_congr_left
  intro r _
  rcases updateRow_cases today r with h | ⟨_, ⟨e, he, _⟩, hfire⟩
  · simp [Function.comp_apply, h]
  · simp only [Function.comp_apply, hfire]
    simp [updateRow, he]

/-- C4: the deriver never changes a unit whose status is `Expired` or
`Transfused`, and on every unit it touches only the `status` field —
`serial`, `segment`, `source`, `blood_type`, `component`, `volume`,
`collected`, `expiry`, `age` and `patient` pass through unchanged. -/
theorem spec_c4 (today : Nat) (r : Row) :
    ((r.status = "Expired" ∨ r.status = "Transfused") → updateRow today r = r) ∧
    (updateRow today r).serial = r.serial ∧
    (updateRow today r).segment = r.segment ∧
    (updateRow today r).source = r.source ∧
    (updateRow today r).blood_type = r.blood_type ∧
    (updateRow today r).component = r.component ∧
    (updateRow today r).volume = r.volume ∧
    (updateRow today r).collected = r.collected ∧
    (updateRow today r).expiry = r.expiry ∧
    (updateRow today r).age = r.age ∧
    (updateRow today r).patient = r.patient ∧
    update_inventory_status today [r] = [updateRow today r] := by
  rcases updateRow_cases today r with h | ⟨hs, _, hfire⟩
  · rw [h]
    simp [update_inventory_status, h]
  · rw [hfire]
    refine ⟨?_, rfl, rfl, rfl, rfl, rfl, rfl, rfl, rfl, rfl, rfl,
      by simp [update_inventory_status, hfire]⟩
    rintro (ht | ht) <;> rcases hs with hs | hs <;> rw [ht] at hs <;> exact absurd hs (by decide)

/-- A concrete Platelets unit used to evaluate the deriver claims: active
status, expiry day 105. -/
def sampleActive : Row :=
  { serial := "BB-002", segment := "None", source := "Donor", blood_type := "A+"
    component := "Platelets", volume := 300, collected := some 100
    expiry := some 105, age := "0d", status := "Available", patient := "None" }

/-- A concrete transfused unit whose expiry day 50 is long past. -/
def sampleTransfused : Row :=
  { serial := "BB-003", segment := "S7", source := "Donor", blood_type := "B-"
    component := "PRBC", volume := 450, collected := some 8
    expiry := some 50, age := "192d", status := "Transfused", patient := "Doe" }

/-- C2 witness: the available Platelets unit with expiry day 105 is
promoted to `Expired` when today is day 200. -/
theorem spec_c2_witness : (updateRow 200 sampleActive).status = "Expired" :=
  (spec_c2 200 [sampleActive]).1 sampleActive (by decide) (Or.inl rfl) 105 rfl (by decide)

/-- C4 witness: the transfused unit is untouched on day 200 even though its
expiry is far in the past, and its serial is preserved. -/
theorem spec_c4_witness :
    updateRow 200 sampleTransfused = sampleTransfused ∧
    (updateRow 200 sampleTransfused).serial = sampleTransfused.serial :=
  ⟨(spec_c4 200 sampleTransfused).1 (Or.inr rfl), (spec_c4 200 sampleTransfused).2.1⟩

/-- C8 witness: registering the sample serial a second time reports the
duplicate and changes nothing. -/
theorem spec_c8_witness :
    (register_unit [sampleActive] sampleActive).df = [sampleActive] ∧
    (register_unit [sampleActive] sampleActive).saved = none ∧
    (register_unit [sampleActive] sampleActive).error =
      some "Unit Serial Number BB-002 already exists." := by
  have h := spec_c8 [sampleActive] sampleActive (by decide)
  exact ⟨h.1, h.2.1, by rw [h.2.2]; rfl⟩

theorem load_data_eq_map (today : Nat) (raws : List RawRow) :
    load_data today raws = raws.map (updateRow today ∘ normalizeRow today) := by
  simp [load_data, update_inventory_status, List.map_map]

/-- A concrete raw CSV record whose `expiry` cell does not parse and whose
status is `Available`. -/
def rawUnparseable : RawRow :=
  { serial := "BB-777", segment := none, source := some "Donor", blood_type := "O+"
    component := "PRBC", volume := 450, collected := "2024-01-01"
    expiry := "not-a-date", status := "Available", patient := none }

/-- C7 counterexample: the claim also asserts the record is "flagged for
review", but `load_data` (src/inventory_app.py lines 72-98) has no flagging
path at all — loading the unparseable-expiry record keeps it `Available`
and retained, yet flags nothing. -/
theorem spec_c7_counterexample :
    (load_data 800000 [rawUnparseable]).map Row.status = ["Available"] ∧
    (load_data 800000 [rawUnparseable]).map flagged_for_review = [false] := by
  decide

/-- C7 (amended): a record loaded with an unparseable expiry cell and
status `Available` is excluded from automatic expiry promotion — after
`load_data` runs the deriver, the record is still present at its position
with status `Available` and its serial intact, and the load never fails;
the source, however, raises no review flag for it. -/
theorem spec_c7_amended (today : Nat) (raws : List RawRow) (i : Nat)
    (hi : i < raws.length)
    (hexp : loadDateField (raws.get ⟨i, hi⟩).expiry = none)
    (hstat : (raws.get ⟨i, hi⟩).status = "Available") :
    (load_data today raws).length = raws.length ∧
    ∀ hj : i < (load_data today raws).length,
      ((load_data today raws).get ⟨i, hj⟩).status = "Available" ∧
      ((load_data today raws).get ⟨i, hj⟩).serial = (raws.get ⟨i, hi⟩).serial ∧
      flagged_for_review ((load_data today raws).get ⟨i, hj⟩) = false := by
  simp only [List.get_eq_getElem] at hexp hstat
  have hlen : (load_data today raws).length = raws.length := by
    rw [load_data_eq_map, List.length_map]
  refine ⟨hlen, ?_⟩
  intro hj
  have hne : (normalizeRow today raws[i]).expiry = none := by
    simpa [normalizeRow] using hexp
  have hfix : updateRow today (normalizeRow today raws[i]) =
      normalizeRow today raws[i] := by
    simp [updateRow, hne]
  have hget : (load_data today raws).get ⟨i, hj⟩ =
      updateRow today (normalizeRow today raws[i]) := by
    simp [load_data_eq_map, List.get_eq_getElem, List.getElem_map]
  rw [hget, hfix]
  exact ⟨by simpa [normalizeRow] using hstat, by simp [normalizeRow], rfl⟩

/-- C7 witness: the amended statement evaluated on the concrete raw record. -/
theorem spec_c7_amended_witness :
    ((load_data 800000 [rawUnparseable]).get ⟨0, by decide⟩).status = "Available" :=
  ((spec_c7_amended 800000 [rawUnparseable] 0 (by decide) (by decide)
    (by decide)).2 (by decide)).1

theorem daysInMonth_le (y m : Nat) : daysInMonth y m ≤ 31 := by
  unfold daysInMonth
  split
  · split <;> omega
  · split <;> omega

theorem toDigit_digitChar : ∀ k : Nat, k < 10 → toDigit (digitChar k) = some k := by
  decide

/-- C9 counterexample: `1500-01-01` is a canonical-format date string (the
formatter's output on the valid calendar date 1500-01-01), but it lies
outside the pandas `Timestamp` range, so loading coerces it to `NaT` and
saving writes back the sentinel `None` — the round-trip is not
byte-for-byte on every canonical date string. -/
theorem spec_c9_counterexample :
    validDate ⟨1500, 1, 1⟩ = true ∧
    formatDate ⟨1500, 1, 1⟩ = "1500-01-01" ∧
    save_date_cell (load_date_cell "1500-01-01") = "None" ∧
    ("None" : String) ≠ "1500-01-01" := by
  decide

/-- C9 (amended): the date cells are format-stable across a load/save
cycle for every representable date: each canonical `YYYY-MM-DD` string
denoting a valid calendar date inside the pandas `Timestamp` range
(1677-09-22 through 2262-04-11 — every date `save_data` can ever have
written) parses to the date it denotes and is reproduced byte-for-byte by
`save_data`'s formatter, and the absent-date sentinel `None` round-trips
to `None`; a canonical string outside that range coerces to `NaT` on load
and is saved as the sentinel instead. -/
theorem spec_c9 (t : DateYMD) (hv : validDate t = true)
    (hr : inTimestampRange t = true) :
    parseDate (formatDate t) = some t ∧
    save_date_cell (load_date_cell (formatDate t)) = formatDate t ∧
    load_date_cell "None" = none ∧
    save_date_cell none = "None" := by
  obtain ⟨y, m, d⟩ := t
  simp only [validDate, Bool.and_eq_true, decide_eq_true_eq] at hv
  obtain ⟨⟨⟨hm1, hm2⟩, hd1⟩, hd2⟩ := hv
  have hd31 : d ≤ 31 := le_trans hd2 (daysInMonth_le y m)
  have hy : y ≤ 9999 := by
    have hr2 := hr
    simp only [inTimestampRange, Bool.and_eq_true, decide_eq_true_eq] at hr2
    omega
  have hparse : parseDate (formatDate ⟨y, m, d⟩) = some ⟨y, m, d⟩ := by
    show parseDateList (formatDate ⟨y, m, d⟩).data = some ⟨y, m, d⟩
    have hdata : (formatDate ⟨y, m, d⟩).data =
        [digitChar (y / 1000), digitChar (y / 100 % 10), digitChar (y / 10 % 10),
         digitChar (y % 10), '-', digitChar (m / 10), digitChar (m % 10), '-',
         digitChar (d / 10), digitChar (d % 10)] := rfl
    have t1 : toDigit (digitChar (y / 1000)) = some (y / 1000) :=
      toDigit_digitChar _ (by omega)
    have t2 : toDigit (digitChar (y / 100 % 10)) = some (y / 100 % 10) :=
      toDigit_digitChar _ (by omega)
    have t3 : toDigit (digitChar (y / 10 % 10)) = some (y / 10 % 10) :=
      toDigit_digitChar _ (by omega)
    have t4 : toDigit (digitChar (y % 10)) = some (y % 10) :=
      toDigit_digitChar _ (by omega)
    have t5 : toDigit (digitChar (m / 10)) = some (m / 10) :=
      toDigit_digitChar _ (by omega)
    have t6 : toDigit (digitChar (m % 10)) = some (m % 10) :=
      toDigit_digitChar _ (by omega)
    have t7 : toDigit (digitChar (d / 10)) = some (d / 10) :=
      toDigit_digitChar _ (by omega)
    have t8 : toDigit (digitChar (d % 10)) = some (d % 10) :=
      toDigit_digitChar _ (by omega)
    rw [hdata]
    simp only [parseDateList, t1, t2, t3, t4, t5, t6, t7, t8]
    have ey : 1000 * (y / 1000) + 100 * (y / 100 % 10) + 10 * (y / 10 % 10) + y % 10 = y := by
      omega
    have em : 10 * (m / 10) + m % 10 = m := by omega
    have ed : 10 * (d / 10) + d % 10 = d := by omega
    rw [ey, em, ed]
    have hv2 : validDate ⟨y, m, d⟩ = true := by
      simp only [validDate, Bool.and_eq_true, decide_eq_true_eq]
      exact ⟨⟨⟨hm1, hm2⟩, hd1⟩, hd2⟩
    simp [hv2, hr]
  have hne : formatDate ⟨y, m, d⟩ ≠ "None" := by
    intro hcontra
    rw [hcontra] at hparse
    rw [(by decide : parseDate "None" = (none : Option DateYMD))] at hparse
    exact Option.noConfusion hparse
  refine ⟨hparse, ?_, by decide, rfl⟩
  simp [load_date_cell, hne, hparse, save_date_cell]

/-- C9 witness: the leap day 2024-02-29 round-trips byte-for-byte. -/
theorem spec_c9_witness :
    parseDate "2024-02-29" = some ⟨2024, 2, 29⟩ ∧
    save_date_cell (load_date_cell "2024-02-29") = "2024-02-29" := by
  have h := spec_c9 ⟨2024, 2, 29⟩ (by decide) (by decide)
  have hf : formatDate ⟨2024, 2, 29⟩ = "2024-02-29" := by decide
  rw [← hf]
  exact ⟨h.1, h.2.1⟩
